import Mathlib

/-!
Shallow embedding of `src/build-doc.py`.

The script has two steps, run sequentially under `if __name__ == '__main__':`
  1. `clean_dir()`: `shutil.rmtree(Path('target/doc'))`
  2. `cargo_doc()`: copies `os.environ`, sets `RUSTDOCFLAGS` to
     `"--html-in-header ./katex.html"` in the copy, and runs
     `subprocess.check_call(['cargo', 'doc', '--no-deps'], env=env)`.

Modelling choices:
  * The filesystem is an association list from paths (lists of components)
    to node kinds (`file` / `dir` / `symlink`).  `shutil.rmtree` raises
    `FileNotFoundError` when the path is absent, `NotADirectoryError` when it
    is a regular file, and an `OSError` when it is a symbolic link; on a
    directory it removes the path and everything beneath it.
  * The environment is an association list; `dict` assignment replaces the
    binding of an existing key and appends otherwise.
  * The external command's exit status is a parameter `cargoExit` of the run;
    `subprocess.check_call` raises `CalledProcessError` exactly when it is
    nonzero.  The external tool's own filesystem writes happen outside of the
    script and are not part of the model.
  * A run produces a trace of events (directory removal, subprocess start
    with the environment passed and the filesystem state at that moment), the
    filesystem as the script last left it, the first uncaught exception if
    any, and the parent environment after the run.  An uncaught exception
    makes the interpreter exit with status 1.
-/

/-- A filesystem path, as a list of components. `Path('target/doc')` is
`["target", "doc"]`. -/
abbrev FsPath := List String

/-- What kind of node sits at a path. -/
inductive NodeKind where
  | file
  | dir
  | symlink
  deriving DecidableEq, Repr

/-- A filesystem: which paths exist, and what kind of node each one is. -/
abbrev FS := List (FsPath × NodeKind)

/-- An environment-variable mapping, as `os.environ` / a Python `dict`. -/
abbrev EnvT := List (String × String)

/-- The Python exceptions the script can raise (all uncaught). -/
inductive PyError where
  | fileNotFound
  | notADirectory
  | symlinkOSError
  | calledProcessError (code : Int)
  deriving DecidableEq, Repr

/-- Node stored at a path, `none` when the path does not exist. -/
def lookupNode (fs : FS) (p : FsPath) : Option NodeKind :=
  match fs with
  | [] => none
  | (q, k) :: rest => if q = p then some k else lookupNode rest p

/-- `os.path.exists`-style existence. -/
def pathExists (fs : FS) (p : FsPath) : Bool :=
  (lookupNode fs p).isSome

/-- The fixed path the script removes: `Path('target/doc')`. -/
def rsdoc_dir : FsPath := ["target", "doc"]

/-- `shutil.rmtree p`: error when `p` is absent, a regular file or a symbolic
link; on a directory, remove `p` and every path beneath it. -/
def rmtree (fs : FS) (p : FsPath) : Except PyError FS :=
  match lookupNode fs p with
  | none => Except.error PyError.fileNotFound
  | some NodeKind.file => Except.error PyError.notADirectory
  | some NodeKind.symlink => Except.error PyError.symlinkOSError
  | some NodeKind.dir =>
      Except.ok (fs.filter (fun e => !(p.isPrefixOf e.1)))

/-- `clean_dir()` from the script: `shutil.rmtree(Path('target/doc'))`. -/
def clean_dir (fs : FS) : Except PyError FS :=
  rmtree fs rsdoc_dir

/-- `dict` lookup (first binding wins; a well-formed environment has each key
at most once). -/
def envLookup (env : EnvT) (k : String) : Option String :=
  match env with
  | [] => none
  | (k2, v) :: rest => if k2 = k then some v else envLookup rest k

/-- `env[k] = v` on a Python `dict`: replace the binding of an existing key,
append a fresh binding otherwise. -/
def envSet (env : EnvT) (k v : String) : EnvT :=
  match env with
  | [] => [(k, v)]
  | (k2, v2) :: rest =>
      if k2 = k then (k, v) :: rest else (k2, v2) :: envSet rest k v

/-- The string assigned to `RUSTDOCFLAGS`. -/
def rustdocflagsValue : String := "--html-in-header ./katex.html"

/-- One subprocess invocation: the argument vector and the environment the
child receives. -/
structure SubprocCall where
  argv : List String
  env : EnvT
  deriving DecidableEq, Repr

/-- `cargo_doc()` from the script: copy `os.environ`, set `RUSTDOCFLAGS` in
the copy, call `subprocess.check_call(['cargo', 'doc', '--no-deps'], env=env)`.
Returns the call it makes and `check_call`'s outcome given the external
command's exit status. -/
def cargo_doc (parentEnv : EnvT) (cargoExit : Int) :
    SubprocCall × Except PyError Unit :=
  let env := envSet parentEnv "RUSTDOCFLAGS" rustdocflagsValue
  let call : SubprocCall := ⟨["cargo", "doc", "--no-deps"], env⟩
  (call,
    if cargoExit = 0 then Except.ok ()
    else Except.error (PyError.calledProcessError cargoExit))

/-- Observable events of a run, in order. `subprocStart` records the
filesystem state at the moment the external tool is started. -/
inductive Event where
  | removedDir (p : FsPath)
  | subprocStart (call : SubprocCall) (fsAtStart : FS)
  deriving DecidableEq, Repr

/-- Outcome of one run of the script. -/
structure RunResult where
  trace : List Event
  finalFs : FS
  err : Option PyError
  parentEnvAfter : EnvT
  deriving DecidableEq, Repr

/-- The `__main__` block: `clean_dir()` then `cargo_doc()`, exceptions
propagating uncaught. -/
def runScript (fs : FS) (parentEnv : EnvT) (cargoExit : Int) : RunResult :=
  match clean_dir fs with
  | Except.error e =>
      { trace := [], finalFs := fs, err := some e, parentEnvAfter := parentEnv }
  | Except.ok fs2 =>
      let (call, r) := cargo_doc parentEnv cargoExit
      { trace := [Event.removedDir rsdoc_dir, Event.subprocStart call fs2]
        finalFs := fs2
        err := match r with
          | Except.ok _ => none
          | Except.error e => some e
        parentEnvAfter := parentEnv }

/-- The subprocess invocations of a run, in order. -/
def callsOf (r : RunResult) : List SubprocCall :=
  r.trace.filterMap fun e =>
    match e with
    | Event.subprocStart c _ => some c
    | _ => none

/-- Process exit status: 0 without an uncaught exception, 1 with one
(CPython exits with status 1 on an uncaught exception). -/
def exitCode (r : RunResult) : Nat :=
  match r.err with
  | none => 0
  | some _ => 1

instance : Nonempty FS := ⟨[]⟩

instance : Nonempty EnvT := ⟨[]⟩

/-! ### Helper lemmas -/

theorem envLookup_envSet_self (env : EnvT) (k v : String) :
    envLookup (envSet env k v) k = some v := by
  induction env with
  | nil => simp [envSet, envLookup]
  | cons hd tl ih =>
      obtain ⟨k2, v2⟩ := hd
      by_cases h : k2 = k
      · simp [envSet, envLookup, h]
      · simp [envSet, envLookup, h, ih]

theorem envLookup_envSet_other (env : EnvT) (k v k2 : String) (h : k2 ≠ k) :
    envLookup (envSet env k v) k2 = envLookup env k2 := by
  induction env with
  | nil =>
      simp [envSet, envLookup]
      exact fun hk => h hk.symm
  | cons hd tl ih =>
      obtain ⟨k3, v3⟩ := hd
      by_cases h3 : k3 = k
      · subst h3
        simp [envSet, envLookup, Ne.symm h, h]
      · by_cases h4 : k3 = k2
        · subst h4
          simp [envSet, envLookup, h3]
        · simp [envSet, envLookup, h3, h4, ih]

theorem lookupNode_filter_under (fs : FS) (p q : FsPath)
    (h : p.isPrefixOf q = true) :
    lookupNode (fs.filter (fun e => !(p.isPrefixOf e.1))) q = none := by
  induction fs with
  | nil => simp [lookupNode]
  | cons hd tl ih =>
      obtain ⟨r, k⟩ := hd
      by_cases hr : p.isPrefixOf r
      · simp [List.filter, hr, ih]
      · have hrq : r ≠ q := by
          intro hEq
          rw [hEq] at hr
          exact hr h
        simp [List.filter, hr, lookupNode, hrq, ih]

theorem clean_dir_ok_eq (fs fs2 : FS) (h : clean_dir fs = Except.ok fs2) :
    fs2 = fs.filter (fun e => !(rsdoc_dir.isPrefixOf e.1)) := by
  unfold clean_dir rmtree at h
  cases hl : lookupNode fs rsdoc_dir with
  | none => rw [hl] at h; exact absurd h (by simp)
  | some k =>
      cases k with
      | file => rw [hl] at h; exact absurd h (by simp)
      | symlink => rw [hl] at h; exact absurd h (by simp)
      | dir =>
          rw [hl] at h
          exact (Except.ok.inj h).symm

/-- A sample starting filesystem in which `target/doc` is a directory with a
file beneath it. -/
def fsWithDocDir : FS :=
  [(["target"], NodeKind.dir),
   (["target", "doc"], NodeKind.dir),
   (["target", "doc", "index.html"], NodeKind.file)]

/-! ### Claims -/

/-- C1: the environment passed to the external documentation command is the
parent environment except that `RUSTDOCFLAGS` is set (added, or overridden)
to exactly `"--html-in-header ./katex.html"`; every other variable keeps its
parent value. -/
theorem c1_child_env_overrides_only_rustdocflags
    (parentEnv : EnvT) (cargoExit : Int) :
    envLookup (cargo_doc parentEnv cargoExit).1.env "RUSTDOCFLAGS"
        = some rustdocflagsValue
    ∧ ∀ k : String, k ≠ "RUSTDOCFLAGS" →
        envLookup (cargo_doc parentEnv cargoExit).1.env k
          = envLookup parentEnv k := by
  constructor
  · exact envLookup_envSet_self parentEnv "RUSTDOCFLAGS" rustdocflagsValue
  · intro k hk
    exact envLookup_envSet_other parentEnv "RUSTDOCFLAGS" rustdocflagsValue k hk

theorem c1_witness :
    envLookup (cargo_doc [("PATH", "/usr/bin")] 0).1.env "RUSTDOCFLAGS"
        = some rustdocflagsValue
    ∧ envLookup (cargo_doc [("PATH", "/usr/bin")] 0).1.env "PATH"
        = some "/usr/bin" := by
  refine ⟨(c1_child_env_overrides_only_rustdocflags [("PATH", "/usr/bin")] 0).1, ?_⟩
  have h := (c1_child_env_overrides_only_rustdocflags [("PATH", "/usr/bin")] 0).2
      "PATH" (by decide)
  rw [h]
  rfl

/-- C2: when `target/doc` does not exist, the run ends in an uncaught
`FileNotFoundError`, the process exits nonzero, and no subprocess is ever
started. -/
theorem c2_missing_target_doc_aborts_before_subprocess
    (fs : FS) (parentEnv : EnvT) (cargoExit : Int)
    (h : lookupNode fs rsdoc_dir = none) :
    (runScript fs parentEnv cargoExit).err = some PyError.fileNotFound
    ∧ callsOf (runScript fs parentEnv cargoExit) = []
    ∧ exitCode (runScript fs parentEnv cargoExit) = 1 := by
  have hclean : clean_dir fs = Except.error PyError.fileNotFound := by
    simp [clean_dir, rmtree, h]
  simp [runScript, hclean, callsOf, exitCode]

theorem c2_witness :
    lookupNode [] rsdoc_dir = none
    ∧ ((runScript [] [] 0).err = some PyError.fileNotFound
        ∧ callsOf (runScript [] [] 0) = []
        ∧ exitCode (runScript [] [] 0) = 1) :=
  ⟨rfl, c2_missing_target_doc_aborts_before_subprocess [] [] 0 rfl⟩

/-- C3: the process exits 0 exactly when the removal succeeded and the
external command exited 0, and the external command is invoked at most once
in any run. -/
theorem c3_exit_zero_iff_clean_ok_and_cargo_zero
    (fs : FS) (parentEnv : EnvT) (cargoExit : Int) :
    (exitCode (runScript fs parentEnv cargoExit) = 0
        ↔ (∃ fs2, clean_dir fs = Except.ok fs2) ∧ cargoExit = 0)
    ∧ (callsOf (runScript fs parentEnv cargoExit)).length ≤ 1 := by
  cases hclean : clean_dir fs with
  | error e => simp [runScript, hclean, exitCode, callsOf]
  | ok fs2 =>
      by_cases hc : cargoExit = 0 <;>
        simp [runScript, hclean, exitCode, callsOf, cargo_doc, hc]

/-- C4: whenever the external tool is started, the removal of `target/doc`
is the event right before it: the whole trace is the removal followed by the
subprocess start. -/
theorem c4_removal_precedes_subprocess
    (fs : FS) (parentEnv : EnvT) (cargoExit : Int)
    (call : SubprocCall) (fs2 : FS)
    (h : Event.subprocStart call fs2 ∈ (runScript fs parentEnv cargoExit).trace) :
    (runScript fs parentEnv cargoExit).trace
      = [Event.removedDir rsdoc_dir, Event.subprocStart call fs2] := by
  cases hclean : clean_dir fs with
  | error e => simp [runScript, hclean] at h
  | ok fs3 =>
      simp only [runScript, hclean, cargo_doc] at h ⊢
      simp at h
      obtain ⟨hcall, hfs⟩ := h
      subst hcall
      subst hfs
      rfl

theorem c4_witness :
    (runScript fsWithDocDir [] 0).trace
      = [Event.removedDir rsdoc_dir,
         Event.subprocStart
           ⟨["cargo", "doc", "--no-deps"], [("RUSTDOCFLAGS", rustdocflagsValue)]⟩
           [(["target"], NodeKind.dir)]] :=
  c4_removal_precedes_subprocess fsWithDocDir [] 0 _ _ (by decide)

/-- C5: when `target/doc` is a directory, `clean_dir` succeeds, and in the
resulting filesystem neither `target/doc` nor any path beneath it exists. -/
theorem c5_clean_removes_dir_and_contents
    (fs : FS) (h : lookupNode fs rsdoc_dir = some NodeKind.dir) :
    ∃ fs2, clean_dir fs = Except.ok fs2
      ∧ pathExists fs2 rsdoc_dir = false
      ∧ ∀ q : FsPath, rsdoc_dir.isPrefixOf q = true → pathExists fs2 q = false := by
  refine ⟨fs.filter (fun e => !(rsdoc_dir.isPrefixOf e.1)), ?_, ?_, ?_⟩
  · simp [clean_dir, rmtree, h]
  · simp [pathExists, lookupNode_filter_under fs rsdoc_dir rsdoc_dir (by decide)]
  · intro q hq
    simp [pathExists, lookupNode_filter_under fs rsdoc_dir q hq]

theorem c5_witness :
    lookupNode fsWithDocDir rsdoc_dir = some NodeKind.dir
    ∧ ∃ fs2, clean_dir fsWithDocDir = Except.ok fs2
        ∧ pathExists fs2 rsdoc_dir = false
        ∧ ∀ q : FsPath, rsdoc_dir.isPrefixOf q = true → pathExists fs2 q = false :=
  ⟨by decide, c5_clean_removes_dir_and_contents fsWithDocDir (by decide)⟩

/-- C6: every subprocess a run starts has argument vector
`["cargo", "doc", "--no-deps"]` and the modified environment, and no run
starts more than one subprocess. -/
theorem c6_subprocess_argv_env_unique
    (fs : FS) (parentEnv : EnvT) (cargoExit : Int) :
    (∀ call ∈ callsOf (runScript fs parentEnv cargoExit),
        call.argv = ["cargo", "doc", "--no-deps"]
        ∧ call.env = envSet parentEnv "RUSTDOCFLAGS" rustdocflagsValue)
    ∧ (callsOf (runScript fs parentEnv cargoExit)).length ≤ 1 := by
  cases hclean : clean_dir fs with
  | error e => simp [runScript, hclean, callsOf]
  | ok fs2 => simp [runScript, hclean, callsOf, cargo_doc]

theorem c6_witness :
    (∀ call ∈ callsOf (runScript fsWithDocDir [("HOME", "/root")] 0),
        call.argv = ["cargo", "doc", "--no-deps"]
        ∧ call.env = envSet [("HOME", "/root")] "RUSTDOCFLAGS" rustdocflagsValue)
    ∧ (callsOf (runScript fsWithDocDir [("HOME", "/root")] 0)).length ≤ 1 :=
  c6_subprocess_argv_env_unique fsWithDocDir [("HOME", "/root")] 0

/-- C7: at the moment the external tool is started, the path `target/doc`
does not exist (so in particular it does not exist or is empty). -/
theorem c7_target_doc_absent_at_subprocess_start
    (fs : FS) (parentEnv : EnvT) (cargoExit : Int)
    (call : SubprocCall) (fs2 : FS)
    (h : Event.subprocStart call fs2 ∈ (runScript fs parentEnv cargoExit).trace) :
    pathExists fs2 rsdoc_dir = false := by
  cases hclean : clean_dir fs with
  | error e => simp [runScript, hclean] at h
  | ok fs3 =>
      simp only [runScript, hclean, cargo_doc] at h
      simp at h
      obtain ⟨hcall, hfs⟩ := h
      subst hfs
      have he := clean_dir_ok_eq fs fs2 hclean
      subst he
      simp [pathExists, lookupNode_filter_under fs rsdoc_dir rsdoc_dir (by decide)]

theorem c7_witness :
    pathExists [(["target"], NodeKind.dir)] rsdoc_dir = false :=
  c7_target_doc_absent_at_subprocess_start fsWithDocDir [] 0
    ⟨["cargo", "doc", "--no-deps"], [("RUSTDOCFLAGS", rustdocflagsValue)]⟩
    [(["target"], NodeKind.dir)] (by decide)

/-- C8: the parent environment is never modified by a run; after `cargo_doc`
runs, every variable has the value it had before. -/
theorem c8_parent_env_unchanged
    (fs : FS) (parentEnv : EnvT) (cargoExit : Int) :
    (runScript fs parentEnv cargoExit).parentEnvAfter = parentEnv
    ∧ ∀ k : String,
        envLookup (runScript fs parentEnv cargoExit).parentEnvAfter k
          = envLookup parentEnv k := by
  cases hclean : clean_dir fs with
  | error e => simp [runScript, hclean]
  | ok fs2 => simp [runScript, hclean]

/-- C9: when `target/doc` exists but is a regular file or a symbolic link,
the run ends in an uncaught error from `rmtree`, exits nonzero, and starts
no subprocess. -/
theorem c9_file_or_symlink_aborts_before_subprocess
    (fs : FS) (parentEnv : EnvT) (cargoExit : Int)
    (h : lookupNode fs rsdoc_dir = some NodeKind.file
        ∨ lookupNode fs rsdoc_dir = some NodeKind.symlink) :
    (runScript fs parentEnv cargoExit).err ≠ none
    ∧ callsOf (runScript fs parentEnv cargoExit) = []
    ∧ exitCode (runScript fs parentEnv cargoExit) = 1 := by
  cases h with
  | inl hf =>
      have hclean : clean_dir fs = Except.error PyError.notADirectory := by
        simp [clean_dir, rmtree, hf]
      simp [runScript, hclean, callsOf, exitCode]
  | inr hs =>
      have hclean : clean_dir fs = Except.error PyError.symlinkOSError := by
        simp [clean_dir, rmtree, hs]
      simp [runScript, hclean, callsOf, exitCode]

theorem c9_witness :
    lookupNode [(rsdoc_dir, NodeKind.file)] rsdoc_dir = some NodeKind.file
    ∧ ((runScript [(rsdoc_dir, NodeKind.file)] [] 0).err ≠ none
        ∧ callsOf (runScript [(rsdoc_dir, NodeKind.file)] [] 0) = []
        ∧ exitCode (runScript [(rsdoc_dir, NodeKind.file)] [] 0) = 1) :=
  ⟨by decide,
   c9_file_or_symlink_aborts_before_subprocess [(rsdoc_dir, NodeKind.file)] [] 0
     (Or.inl (by decide))⟩

/-- C10: the script never reads `./katex.html`: which subprocesses a run
starts and which error it raises depend only on the node at `target/doc`
(and the external exit status), so two filesystems differing only at
`./katex.html` give identical runs. -/
theorem c10_run_depends_only_on_target_doc_node
    (fs1 fs2 : FS) (parentEnv : EnvT) (cargoExit : Int)
    (h : lookupNode fs1 rsdoc_dir = lookupNode fs2 rsdoc_dir) :
    callsOf (runScript fs1 parentEnv cargoExit)
        = callsOf (runScript fs2 parentEnv cargoExit)
    ∧ (runScript fs1 parentEnv cargoExit).err
        = (runScript fs2 parentEnv cargoExit).err := by
  cases hl : lookupNode fs1 rsdoc_dir with
  | none =>
      have hl2 : lookupNode fs2 rsdoc_dir = none := by rw [← h, hl]
      have hc1 : clean_dir fs1 = Except.error PyError.fileNotFound := by
        simp [clean_dir, rmtree, hl]
      have hc2 : clean_dir fs2 = Except.error PyError.fileNotFound := by
        simp [clean_dir, rmtree, hl2]
      simp [runScript, hc1, hc2, callsOf]
  | some k =>
      have hl2 : lookupNode fs2 rsdoc_dir = some k := by rw [← h, hl]
      cases k with
      | file =>
          have hc1 : clean_dir fs1 = Except.error PyError.notADirectory := by
            simp [clean_dir, rmtree, hl]
          have hc2 : clean_dir fs2 = Except.error PyError.notADirectory := by
            simp [clean_dir, rmtree, hl2]
          simp [runScript, hc1, hc2, callsOf]
      | symlink =>
          have hc1 : clean_dir fs1 = Except.error PyError.symlinkOSError := by
            simp [clean_dir, rmtree, hl]
          have hc2 : clean_dir fs2 = Except.error PyError.symlinkOSError := by
            simp [clean_dir, rmtree, hl2]
          simp [runScript, hc1, hc2, callsOf]
      | dir =>
          have hc1 : clean_dir fs1
              = Except.ok (fs1.filter (fun e => !(rsdoc_dir.isPrefixOf e.1))) := by
            simp [clean_dir, rmtree, hl]
          have hc2 : clean_dir fs2
              = Except.ok (fs2.filter (fun e => !(rsdoc_dir.isPrefixOf e.1))) := by
            simp [clean_dir, rmtree, hl2]
          simp [runScript, hc1, hc2, callsOf, cargo_doc]

theorem c10_witness :
    lookupNode fsWithDocDir rsdoc_dir
        = lookupNode (fsWithDocDir ++ [(["katex.html"], NodeKind.file)]) rsdoc_dir
    ∧ (callsOf (runScript fsWithDocDir [] 0)
        = callsOf (runScript (fsWithDocDir ++ [(["katex.html"], NodeKind.file)]) [] 0)
      ∧ (runScript fsWithDocDir [] 0).err
        = (runScript (fsWithDocDir ++ [(["katex.html"], NodeKind.file)]) [] 0).err) :=
  ⟨by decide,
   c10_run_depends_only_on_target_doc_node fsWithDocDir
     (fsWithDocDir ++ [(["katex.html"], NodeKind.file)]) [] 0 (by decide)⟩
